import Mathlib

/-!
Shallow embedding of the quota-and-session core of the `cashly-ai-openai`
backend.  The repository holds two near-duplicate server variants:

* `src/unnamed/part_000` — the level-based variant (numeric `levelId`,
  `LEVELS` table); embedded below in namespace `P0`.
* `src/server.js` — the tier-based variant (string `tier`, `TIERS` table);
  embedded below in namespace `Srv`.

Both variants store state in one JSON file of shape
`{ users: {...}, sessions: {...} }`; we model that store as `DB`.
JavaScript field absence is modelled with `Option`; the JS `Infinity`
allowance sentinel is modelled as `none : Option Nat`; the current calendar
day and `Date.now()` timestamps are injected parameters (the code reads the
ambient clock).  A JS `TypeError` thrown inside a handler is caught by the
handler's `catch` and produces a 500 response; functions that can throw
return `Option` with `none` = throw.
-/

/-- A JSON-ish value, enough to model the dynamically typed `message`
request field and session `content` fields (part_000 stores the raw
`message` value in the session, whatever its type). -/
inductive JVal where
  | jundef : JVal
  | jnull : JVal
  | jstr : String → JVal
  | jnum : Int → JVal
  | jbool : Bool → JVal
deriving DecidableEq, Repr

/-- JavaScript truthiness of a `JVal` (`NaN` not modelled). -/
def JVal.truthy : JVal → Bool
  | .jundef => false
  | .jnull => false
  | .jstr s => s ≠ ""
  | .jnum n => n ≠ 0
  | .jbool b => b

/-- JS `typeof v === "string"`. -/
def JVal.isString : JVal → Bool
  | .jstr _ => true
  | _ => false

/-- The `usage` sub-object of a user record: `{ date, count }`. -/
structure Usage where
  date : String
  count : Nat
deriving DecidableEq, Repr

/-- A user record as stored in `data.json`.  Both variants read and write
the same file, so one record type carries both the part_000 `levelId`
field and the server.js `tier` field; each field is `Option` because the
code can create records lacking it (e.g. `updateLevel` creates `{ id }`
only). -/
structure User where
  id : String
  levelId : Option Int
  tier : Option String
  extraRequests : Option Int
  usage : Option Usage
deriving DecidableEq, Repr

/-- A session log entry `{ role, content, ts }` as written by
`pushSession`. -/
structure Msg where
  role : String
  content : JVal
  ts : Nat
deriving DecidableEq, Repr

/-- The durable store `data.json`: the `users` and `sessions` maps.
Absent keys are `none` / `[]` (the code defaults a missing session to
`[]`). -/
structure DB where
  users : String → Option User
  sessions : String → List Msg

/-- Store a user record under a key. -/
def DB.setUser (st : DB) (uid : String) (u : User) : DB :=
  { st with users := fun k => if k = uid then some u else st.users k }

/-- Store a session list under a key. -/
def DB.setSession (st : DB) (uid : String) (s : List Msg) : DB :=
  { st with sessions := fun k => if k = uid then s else st.sessions k }

/-- A `remaining` value in a quota result: a finite count or the JS
`Infinity` sentinel. -/
inductive Rem where
  | fin : Nat → Rem
  | inf : Rem
deriving DecidableEq, Repr

/-- The object returned by `consumeQuota`.  `reason` and `remaining` are
`Option` because the two variants differ in which fields they attach
(part_000's exhausted result has no `remaining` field; server.js's has
`remaining: 0`). -/
structure QuotaOutcome where
  ok : Bool
  reason : Option String
  remaining : Option Rem
deriving DecidableEq, Repr

/-- The observable outcome of a `POST /api/chat` request:
400 invalid message, 429 quota refusal (carrying the quota result as
`details`), 500 catch-all (upstream failure or a thrown `TypeError`), or
the 200 body `{ reply, meta.remainingRequests }`. -/
inductive ChatRes where
  | invalid : ChatRes
  | quotaErr : QuotaOutcome → ChatRes
  | err500 : ChatRes
  | success : String → Option Rem → ChatRes
deriving DecidableEq, Repr

/-- The upstream completion call, an external collaborator: it either
throws (transport error / non-2xx / timeout) or returns a response whose
extracted `choices[0].message.content` is `none` (missing) or a string. -/
inductive Upstream where
  | fail : Upstream
  | ok : Option String → Upstream
deriving DecidableEq, Repr

/-- Everything a chat handler run produces: the HTTP-level result, the
final store, and the `model` field of the payload sent upstream (`none`
when no upstream call was made).  The rest of the payload (conversation
array, sampling parameters) does not affect any store or result and is
not modelled. -/
structure ChatOut where
  res : ChatRes
  db : DB
  payloadModel : Option String

/-- The fixed placeholder reply `"(keine Antwort)"`, used when the
completion body is missing (both variants), or empty (part_000 only). -/
def PLACEHOLDER : String := "(keine Antwort)"

/-- Session cap, `MAX_SESSION_MSGS = 12` in both variants. -/
def MAX_SESSION_MSGS : Nat := 12

/-- Function `pushSession(userId, role, content)` (identical in both variants):
append `{ role, content, ts }` to the user's log, then
`slice(-MAX_SESSION_MSGS)` whenever the length exceeds the cap. -/
def pushSession (uid role : String) (content : JVal) (ts : Nat) (st : DB) : DB :=
  let s := st.sessions uid ++ [⟨role, content, ts⟩]
  let s2 := if s.length > MAX_SESSION_MSGS then s.drop (s.length - MAX_SESSION_MSGS) else s
  st.setSession uid s2

namespace P0

/-- One entry of the part_000 `LEVELS` table:
`{ name, requestsPerDay, model }`; `requestsPerDay = none` models the
`Infinity` sentinel. -/
structure Level where
  name : String
  requestsPerDay : Option Nat
  model : String
deriving DecidableEq, Repr

/-- The `LEVELS` table of part_000 (lines 129–136). -/
def LEVELS : Int → Option Level := fun k =>
  if k = 4 then some ⟨"Cashly Starter Lifetime", some 5, "gpt-4.1-mini"⟩
  else if k = 5 then some ⟨"Cashly Claimer Lifetime", some 20, "gpt-4.1-mini"⟩
  else if k = 2 then some ⟨"Cashly Claimer(ABO)", some 20, "gpt-4.1-mini"⟩
  else if k = 6 then some ⟨"Cashly Winner Lifetime", none, "gpt-4.1"⟩
  else if k = 3 then some ⟨"Cashly Winner(ABO)", none, "gpt-4.1"⟩
  else if k = 11 then some ⟨"Cashly Unlimed", none, "gpt-4.1"⟩
  else none

/-- Resolution `LEVELS[user.levelId] || LEVELS[4]`: an absent `levelId`, or one that
is not a key of the table, falls back to the Starter entry (`LEVELS[4]`).
Appears at part_000 lines 164 and 233. -/
def resolveLevel (lid : Option Int) : Level :=
  match lid with
  | some l =>
    match LEVELS l with
    | some lv => lv
    | none => ⟨"Cashly Starter Lifetime", some 5, "gpt-4.1-mini"⟩
  | none => ⟨"Cashly Starter Lifetime", some 5, "gpt-4.1-mini"⟩

/-- Function `ensureUser(userId)` of part_000 (lines 139–156): create a default
record if missing, otherwise reset `usage` to `{ today, 0 }` when
`usage?.date !== today` (also when `usage` is absent). -/
def ensureUser (uid today : String) (st : DB) : DB :=
  match st.users uid with
  | none => st.setUser uid ⟨uid, some 4, none, some 0, some ⟨today, 0⟩⟩
  | some u =>
    let stale : Bool := match u.usage with
      | some uu => uu.date != today
      | none => true
    if stale then st.setUser uid { u with usage := some ⟨today, 0⟩ } else st

/-- Function `consumeQuota(userId)` of part_000 (lines 159–184).  Returns `none`
when the JS code throws (`user.usage.count` with `usage` absent); the
read of `usage.count` happens before the `Infinity` early return, exactly
as in the source. -/
def consumeQuota (uid : String) (st : DB) : Option (QuotaOutcome × DB) :=
  match st.users uid with
  | none => some (⟨false, some "user_not_found", none⟩, st)
  | some u =>
    let level := resolveLevel u.levelId
    let allowed := level.requestsPerDay
    let extra := u.extraRequests
    match u.usage with
    | none => none
    | some uu =>
      let used := uu.count
      match allowed with
      | none => some (⟨true, none, some Rem.inf⟩, st)
      | some a =>
        if used < a then
          some (⟨true, none, some (Rem.fin (a - (used + 1)))⟩,
            st.setUser uid { u with usage := some ⟨uu.date, used + 1⟩ })
        else
          match extra with
          | some e =>
            if e > 0 then
              some (⟨true, none, some (Rem.fin 0)⟩,
                st.setUser uid { u with extraRequests := some (e - 1) })
            else some (⟨false, some "quota_exhausted", none⟩, st)
          | none => some (⟨false, some "quota_exhausted", none⟩, st)

/-- The `POST /api/chat` handler of part_000 (lines 221–271).  `userId`
defaults to `"guest"` when absent; the validation is `if (!message)`
(truthiness only); the reply is
`content || "(keine Antwort)"` (placeholder also for an empty string);
on success the user message and the reply are appended to the session.
`up` is the external completion call's behaviour, `ts1`/`ts2` the
`Date.now()` values of the two appends. -/
def chat (userId : Option String) (message : JVal) (up : Upstream)
    (today : String) (ts1 ts2 : Nat) (st : DB) : ChatOut :=
  let uid := userId.getD "guest"
  if ¬ message.truthy then ⟨.invalid, st, none⟩
  else
    let st1 := ensureUser uid today st
    match consumeQuota uid st1 with
    | none => ⟨.err500, st1, none⟩
    | some (q, st2) =>
      if ¬ q.ok then ⟨.quotaErr q, st2, none⟩
      else
        match st2.users uid with
        | none => ⟨.err500, st2, none⟩
        | some u =>
          let level := resolveLevel u.levelId
          match up with
          | .fail => ⟨.err500, st2, some level.model⟩
          | .ok content =>
            let reply := match content with
              | some s => if s ≠ "" then s else PLACEHOLDER
              | none => PLACEHOLDER
            let st3 := pushSession uid "user" message ts1 st2
            let st4 := pushSession uid "assistant" (.jstr reply) ts2 st3
            ⟨.success reply q.remaining, st4, some level.model⟩

/-- The `POST /api/user/updateLevel` handler of part_000 (lines 274–285):
400 (`none`) on a falsy `userId`; otherwise upsert (`{ id }` only when
absent), overwrite `levelId` when the supplied value is truthy, overwrite
`extraRequests` when the supplied value is a number. -/
def updateLevel (userId : Option String) (levelId : Option Int)
    (extraRequests : Option Int) (st : DB) : Option User × DB :=
  match userId with
  | none => (none, st)
  | some uid =>
    if uid = "" then (none, st)
    else
      let u0 := match st.users uid with
        | some u => u
        | none => ⟨uid, none, none, none, none⟩
      let u1 := match levelId with
        | some l => if l ≠ 0 then { u0 with levelId := some l } else u0
        | none => u0
      let u2 := match extraRequests with
        | some e => { u1 with extraRequests := some e }
        | none => u1
      (some u2, st.setUser uid u2)

end P0

namespace Srv

/-- The `TIERS` table of server.js (lines 49–54), giving each tier name
its `requestsPerDay` (`none` = `Infinity`). -/
def TIERS : String → Option (Option Nat) := fun t =>
  if t = "free" then some (some 5)
  else if t = "basic" then some (some 100)
  else if t = "pro" then some (some 500)
  else if t = "premium" then some none
  else none

/-- Function `ensureUser(userId)` of server.js (lines 57–76); identical control
flow to part_000's, but the default record carries `tier: "free"`. -/
def ensureUser (uid today : String) (st : DB) : DB :=
  match st.users uid with
  | none => st.setUser uid ⟨uid, none, some "free", some 0, some ⟨today, 0⟩⟩
  | some u =>
    let stale : Bool := match u.usage with
      | some uu => uu.date != today
      | none => true
    if stale then st.setUser uid { u with usage := some ⟨today, 0⟩ } else st

/-- server.js lines 84–85: `tier = user.tier || "free"` then
`allowed = TIERS[tier]?.requestsPerDay ?? 0` — an absent or falsy tier
falls back to `"free"`, an unknown tier yields allowance 0. -/
def resolveAllowed (tier0 : Option String) : Option Nat :=
  let tier := match tier0 with
    | some t => if t ≠ "" then t else "free"
    | none => "free"
  match TIERS tier with
  | some a => a
  | none => some 0

/-- Function `consumeQuota(userId)` of server.js (lines 79–104):
`tier = user.tier || "free"`, `allowed = TIERS[tier]?.requestsPerDay ?? 0`
(an unknown tier yields allowance 0), `extra = user.extraRequests || 0`,
`used = user.usage?.count || 0`.  The exhausted result carries
`remaining: 0`.  Returns `none` when the JS code throws
(`user.usage.count = used + 1` with `usage` absent). -/
def consumeQuota (uid : String) (st : DB) : Option (QuotaOutcome × DB) :=
  match st.users uid with
  | none => some (⟨false, some "user_not_found", none⟩, st)
  | some u =>
    let allowed := resolveAllowed u.tier
    let extra := match u.extraRequests with
      | some e => e
      | none => 0
    let used := match u.usage with
      | some uu => uu.count
      | none => 0
    match allowed with
    | none => some (⟨true, none, some Rem.inf⟩, st)
    | some a =>
      if used < a then
        match u.usage with
        | none => none
        | some uu =>
          some (⟨true, none, some (Rem.fin (a - (used + 1)))⟩,
            st.setUser uid { u with usage := some ⟨uu.date, used + 1⟩ })
      else
        if extra > 0 then
          some (⟨true, none, some (Rem.fin 0)⟩,
            st.setUser uid { u with extraRequests := some (extra - 1) })
        else some (⟨false, some "quota_exhausted", some (Rem.fin 0)⟩, st)

/-- The model identifier server.js sends upstream
(`process.env.OPENAI_MODEL || "gpt-4.1-mini"`, configuration). -/
def OPENAI_MODEL : String := "gpt-4.1-mini"

/-- The `POST /api/chat` handler of server.js (lines 144–212).  The
validation is `if (!message || typeof message !== "string")`; the reply
is `content ?? "(keine Antwort)"` (an empty string is kept as the
reply). -/
def chat (userId : Option String) (message : JVal) (up : Upstream)
    (today : String) (ts1 ts2 : Nat) (st : DB) : ChatOut :=
  let uid := userId.getD "guest"
  if ¬ (message.truthy ∧ message.isString) then ⟨.invalid, st, none⟩
  else
    let st1 := ensureUser uid today st
    match consumeQuota uid st1 with
    | none => ⟨.err500, st1, none⟩
    | some (q, st2) =>
      if ¬ q.ok then ⟨.quotaErr q, st2, none⟩
      else
        match up with
        | .fail => ⟨.err500, st2, some OPENAI_MODEL⟩
        | .ok content =>
          let reply := match content with
            | some s => s
            | none => PLACEHOLDER
          let st3 := pushSession uid "user" message ts1 st2
          let st4 := pushSession uid "assistant" (.jstr reply) ts2 st3
          ⟨.success reply q.remaining, st4, some OPENAI_MODEL⟩

/-- The `POST /api/user/updateTier` handler of server.js (lines
215–225): 400 (`none`) on a falsy `userId`; otherwise upsert (creating
`{ id, usage: { today, 0 } }` when absent), then
`tier = tier || existing.tier || "free"` (the field is always written),
and overwrite `extraRequests` when the supplied value is a number. -/
def updateTier (userId : Option String) (tier : Option String)
    (extraRequests : Option Int) (today : String) (st : DB) :
    Option User × DB :=
  match userId with
  | none => (none, st)
  | some uid =>
    if uid = "" then (none, st)
    else
      let u0 := match st.users uid with
        | some u => u
        | none => ⟨uid, none, none, none, some ⟨today, 0⟩⟩
      let newTier := match tier with
        | some t =>
          if t ≠ "" then t
          else match u0.tier with
            | some s => if s ≠ "" then s else "free"
            | none => "free"
        | none => match u0.tier with
          | some s => if s ≠ "" then s else "free"
          | none => "free"
      let u1 := { u0 with tier := some newTier }
      let u2 := match extraRequests with
        | some e => { u1 with extraRequests := some e }
        | none => u1
      (some u2, st.setUser uid u2)

end Srv

/-! ## Theorem layer: shared helpers -/

/-- The empty store (the `data.json` default shape
`{ users: {}, sessions: {} }`). -/
def emptyDB : DB := { users := fun _ => none, sessions := fun _ => [] }

/-- The last `n` entries of a list, in order — the effect of the JS
`slice(-n)` truncation. -/
def lastN {α : Type} (n : Nat) (xs : List α) : List α := xs.drop (xs.length - n)

/-- The `Msg` that `pushSession` builds from a `(role, content, ts)`
triple. -/
def mkMsg (e : String × JVal × Nat) : Msg := ⟨e.1, e.2.1, e.2.2⟩

/-- Iterate `pushSession` over a list of `(role, content, ts)` entries,
oldest first. -/
def pushMany (uid : String) (es : List (String × JVal × Nat)) (st : DB) : DB :=
  match es with
  | [] => st
  | e :: rest => pushMany uid rest (pushSession uid e.1 e.2.1 e.2.2 st)

lemma length_lastN_le {α : Type} (n : Nat) (xs : List α) :
    (lastN n xs).length ≤ n := by
  simp [lastN]; omega

lemma lastN_of_length_le {α : Type} {n : Nat} {xs : List α}
    (h : xs.length ≤ n) : lastN n xs = xs := by
  simp [lastN, Nat.sub_eq_zero_of_le h]

lemma lastN_append_absorb {α : Type} (n : Nat) (X Y : List α) :
    lastN n (lastN n X ++ Y) = lastN n (X ++ Y) := by
  rcases le_or_lt X.length n with h | h
  · rw [lastN_of_length_le h]
  · unfold lastN
    rw [List.drop_append_eq_append_drop, List.drop_append_eq_append_drop,
      List.drop_drop]
    congr 1
    · congr 1
      simp only [List.length_append, List.length_drop]
      omega
    · congr 1
      simp only [List.length_append, List.length_drop]
      omega

/-- One `pushSession` leaves the user's log equal to the last
`MAX_SESSION_MSGS` entries of the previous log with the new entry
appended. -/
lemma pushSession_sessions_self (uid r : String) (c : JVal) (t : Nat) (st : DB) :
    (pushSession uid r c t st).sessions uid
      = lastN MAX_SESSION_MSGS (st.sessions uid ++ [⟨r, c, t⟩]) := by
  have h1 : (pushSession uid r c t st).sessions uid
      = (if (st.sessions uid ++ [(⟨r, c, t⟩ : Msg)]).length > MAX_SESSION_MSGS
        then (st.sessions uid ++ [(⟨r, c, t⟩ : Msg)]).drop
          ((st.sessions uid ++ [(⟨r, c, t⟩ : Msg)]).length - MAX_SESSION_MSGS)
        else st.sessions uid ++ [(⟨r, c, t⟩ : Msg)]) := by
    simp [pushSession, DB.setSession]
  rw [h1]
  split
  · rfl
  · next hle => exact (lastN_of_length_le (by omega)).symm

/-- Folding `pushSession` over a list of entries: the resulting log is
the last `MAX_SESSION_MSGS` entries of old log ++ new entries. -/
lemma pushMany_sessions (uid : String) (es : List (String × JVal × Nat)) (st : DB)
    (h : (st.sessions uid).length ≤ MAX_SESSION_MSGS) :
    (pushMany uid es st).sessions uid
      = lastN MAX_SESSION_MSGS (st.sessions uid ++ es.map mkMsg) := by
  induction es generalizing st with
  | nil => simpa [pushMany] using (lastN_of_length_le h).symm
  | cons e rest ih =>
    rw [pushMany,
      ih _ (by rw [pushSession_sessions_self]; exact length_lastN_le _ _),
      pushSession_sessions_self, lastN_append_absorb]
    simp [mkMsg]

/-- C2: after any number of appends starting from an empty log, the
session log has length at most 12; with at most 12 entries appended it
holds all of them in order; with more than 12 appended it equals exactly
the most recently appended 12 in their original relative order. -/
theorem c2_session_fifo (uid : String) (st : DB)
    (es : List (String × JVal × Nat)) (h0 : st.sessions uid = []) :
    ((pushMany uid es st).sessions uid).length ≤ MAX_SESSION_MSGS
    ∧ (es.length ≤ MAX_SESSION_MSGS →
        (pushMany uid es st).sessions uid = es.map mkMsg)
    ∧ (MAX_SESSION_MSGS < es.length →
        (pushMany uid es st).sessions uid
          = (es.map mkMsg).drop (es.length - MAX_SESSION_MSGS)) := by
  have hchar := pushMany_sessions uid es st (by rw [h0]; simp)
  rw [h0] at hchar
  simp only [List.nil_append] at hchar
  refine ⟨?_, ?_, ?_⟩
  · rw [hchar]; exact length_lastN_le _ _
  · intro hle
    rw [hchar]
    exact lastN_of_length_le (by simpa using hle)
  · intro hgt
    rw [hchar, lastN]
    simp

/-- A concrete batch of 15 distinct session entries. -/
def es15 : List (String × JVal × Nat) :=
  (List.range 15).map (fun (i : Nat) => ("user", JVal.jnum (Int.ofNat i), i))

/-- Witness for C2: pushing 15 distinct entries onto an empty log leaves
at most 12 entries, namely entries 4–15 (the most recent 12). -/
theorem c2_session_fifo_witness :
    emptyDB.sessions "u" = []
    ∧ ((pushMany "u" es15 emptyDB).sessions "u").length ≤ MAX_SESSION_MSGS
    ∧ (pushMany "u" es15 emptyDB).sessions "u"
        = (es15.map mkMsg).drop (es15.length - MAX_SESSION_MSGS) :=
  ⟨rfl, (c2_session_fifo "u" emptyDB es15 rfl).1,
    (c2_session_fifo "u" emptyDB es15 rfl).2.2 (by decide)⟩

/-! ## Iterated quota consumption (part_000) -/

/-- Iterate part_000's `consumeQuota` for one user, the store threading
from call to call; a thrown call leaves the store unchanged. -/
def consumeStepsP0 (uid : String) (st : DB) : Nat → DB
  | 0 => st
  | n + 1 =>
    match P0.consumeQuota uid (consumeStepsP0 uid st n) with
    | some (_, st2) => st2
    | none => consumeStepsP0 uid st n

/-- The outcome of the `(n+1)`th `consumeQuota` call in that iteration
(`none` = the call threw). -/
def callNP0 (uid : String) (st : DB) (n : Nat) : Option QuotaOutcome :=
  (P0.consumeQuota uid (consumeStepsP0 uid st n)).map Prod.fst

lemma DB.setUser_users_self (st : DB) (uid : String) (u : User) :
    (st.setUser uid u).users uid = some u := by
  simp [DB.setUser]

/-- One part_000 `consumeQuota` call on a bounded-allowance user with
count `c` and bonus `e`: below the allowance it increments the count and
reports `allowed - (c+1)`; at the allowance with positive bonus it
decrements the bonus and reports 0; otherwise it fails with
`quota_exhausted` and no `remaining` field. -/
lemma consumeQuotaP0_bounded (uid d i : String) (lid : Option Int)
    (tr : Option String) (A c : Nat) (e : Int) (st : DB)
    (hu : st.users uid = some ⟨i, lid, tr, some e, some ⟨d, c⟩⟩)
    (hA : (P0.resolveLevel lid).requestsPerDay = some A) :
    P0.consumeQuota uid st =
      if c < A then
        some (⟨true, none, some (Rem.fin (A - (c + 1)))⟩,
          st.setUser uid ⟨i, lid, tr, some e, some ⟨d, c + 1⟩⟩)
      else if e > 0 then
        some (⟨true, none, some (Rem.fin 0)⟩,
          st.setUser uid ⟨i, lid, tr, some (e - 1), some ⟨d, c⟩⟩)
      else some (⟨false, some "quota_exhausted", none⟩, st) := by
  simp only [P0.consumeQuota, hu, hA]

/-- State evolution under iterated part_000 `consumeQuota` for a user
starting at count 0 with bonus `B` and bounded allowance `A`: after `k ≤
A + B` calls the count is `min k A` and the bonus is `B - (k - A)`. -/
lemma consumeStepsP0_state (uid d i : String) (lid : Option Int)
    (tr : Option String) (A B : Nat) (st : DB)
    (hu : st.users uid = some ⟨i, lid, tr, some (B : Int), some ⟨d, 0⟩⟩)
    (hA : (P0.resolveLevel lid).requestsPerDay = some A) :
    ∀ k, k ≤ A + B →
      (consumeStepsP0 uid st k).users uid
        = some ⟨i, lid, tr, some ((B : Int) - ((k - A : Nat) : Int)),
            some ⟨d, min k A⟩⟩ := by
  intro k
  induction k with
  | zero =>
    intro _
    have h1 : min 0 A = 0 := by omega
    have h2 : (B : Int) - ((0 - A : Nat) : Int) = (B : Int) := by omega
    rw [consumeStepsP0, h1, h2, hu]
  | succ n ih =>
    intro hk
    have hn := ih (by omega)
    have hstep := consumeQuotaP0_bounded uid d i lid tr A (min n A)
      ((B : Int) - ((n - A : Nat) : Int)) (consumeStepsP0 uid st n) hn hA
    rw [consumeStepsP0]
    rcases lt_or_ge n A with hlt | hge
    · rw [hstep, if_pos (show min n A < A by omega)]
      have h1 : min n A + 1 = min (n + 1) A := by omega
      have h2 : (B : Int) - ((n - A : Nat) : Int)
          = (B : Int) - ((n + 1 - A : Nat) : Int) := by omega
      rw [DB.setUser_users_self, h1, h2]
    · rw [hstep, if_neg (show ¬ min n A < A by omega),
        if_pos (show (B : Int) - ((n - A : Nat) : Int) > 0 by omega)]
      have h1 : min n A = min (n + 1) A := by omega
      have h2 : (B : Int) - ((n - A : Nat) : Int) - 1
          = (B : Int) - ((n + 1 - A : Nat) : Int) := by omega
      rw [DB.setUser_users_self, h1, h2]

/-- C1: a user on a bounded level with daily allowance `A`, fresh usage
(count 0) and bonus `B` sees, over consecutive `consumeQuota` calls with
the date unchanged: the first `A` calls succeed consuming the daily
allowance with `remaining = A - (k+1)` (strictly decreasing to 0) and
`count` incrementing while the bonus stays `B`; the next `B` calls
succeed consuming the bonus (decrementing it, `count` stuck at `A`) each
reporting `remaining = 0`; and the `(A+B+1)`th call fails with reason
`quota_exhausted`. -/
theorem c1_bounded_quota_sequence (uid d i : String) (lid : Option Int)
    (tr : Option String) (A B : Nat) (st : DB)
    (hu : st.users uid = some ⟨i, lid, tr, some (B : Int), some ⟨d, 0⟩⟩)
    (hA : (P0.resolveLevel lid).requestsPerDay = some A) :
    (∀ k, k < A →
      callNP0 uid st k = some ⟨true, none, some (Rem.fin (A - (k + 1)))⟩
      ∧ (consumeStepsP0 uid st (k + 1)).users uid
          = some ⟨i, lid, tr, some (B : Int), some ⟨d, k + 1⟩⟩)
    ∧ (∀ k, A ≤ k → k < A + B →
      callNP0 uid st k = some ⟨true, none, some (Rem.fin 0)⟩
      ∧ (consumeStepsP0 uid st (k + 1)).users uid
          = some ⟨i, lid, tr, some ((B : Int) - ((k + 1 - A : Nat) : Int)),
              some ⟨d, A⟩⟩)
    ∧ callNP0 uid st (A + B) = some ⟨false, some "quota_exhausted", none⟩ := by
  have hstate := consumeStepsP0_state uid d i lid tr A B st hu hA
  refine ⟨?_, ?_, ?_⟩
  · intro k hk
    have hstep := consumeQuotaP0_bounded uid d i lid tr A (min k A)
      ((B : Int) - ((k - A : Nat) : Int)) _ (hstate k (by omega)) hA
    constructor
    · rw [callNP0, hstep, if_pos (show min k A < A by omega)]
      have h1 : A - (min k A + 1) = A - (k + 1) := by omega
      simp [h1]
    · have h1 : min (k + 1) A = k + 1 := by omega
      have h2 : (B : Int) - ((k + 1 - A : Nat) : Int) = (B : Int) := by omega
      rw [hstate (k + 1) (by omega), h1, h2]
  · intro k hk1 hk2
    have hstep := consumeQuotaP0_bounded uid d i lid tr A (min k A)
      ((B : Int) - ((k - A : Nat) : Int)) _ (hstate k (by omega)) hA
    constructor
    · rw [callNP0, hstep, if_neg (show ¬ min k A < A by omega),
        if_pos (show (B : Int) - ((k - A : Nat) : Int) > 0 by omega)]
      rfl
    · have h1 : min (k + 1) A = A := by omega
      rw [hstate (k + 1) (by omega), h1]
  · have hstep := consumeQuotaP0_bounded uid d i lid tr A (min (A + B) A)
      ((B : Int) - ((A + B - A : Nat) : Int)) _ (hstate (A + B) (by omega)) hA
    rw [callNP0, hstep, if_neg (show ¬ min (A + B) A < A by omega),
      if_neg (show ¬ (B : Int) - ((A + B - A : Nat) : Int) > 0 by omega)]
    rfl

/-! ## Frame lemmas: neither `ensureUser` nor `consumeQuota` touches
sessions -/

lemma ensureUserP0_sessions (uid d : String) (st : DB) :
    (P0.ensureUser uid d st).sessions = st.sessions := by
  unfold P0.ensureUser
  split
  · rfl
  · dsimp only
    split <;> rfl

lemma ensureUserS_sessions (uid d : String) (st : DB) :
    (Srv.ensureUser uid d st).sessions = st.sessions := by
  unfold Srv.ensureUser
  split
  · rfl
  · dsimp only
    split <;> rfl

lemma consumeQuotaP0_sessions (uid : String) (st st2 : DB) (q : QuotaOutcome)
    (h : P0.consumeQuota uid st = some (q, st2)) :
    st2.sessions = st.sessions := by
  unfold P0.consumeQuota at h
  dsimp only at h
  repeat' split at h
  all_goals
    first
    | (cases h; rfl)
    | cases h

lemma consumeQuotaS_sessions (uid : String) (st st2 : DB) (q : QuotaOutcome)
    (h : Srv.consumeQuota uid st = some (q, st2)) :
    st2.sessions = st.sessions := by
  unfold Srv.consumeQuota at h
  dsimp only at h
  repeat' split at h
  all_goals
    first
    | (cases h; rfl)
    | cases h

/-- A part_000 `consumeQuota` call that returns `ok: true` leaves a user
record under the key in the resulting store. -/
lemma consumeQuotaP0_ok_user (uid : String) (st st2 : DB) (q : QuotaOutcome)
    (h : P0.consumeQuota uid st = some (q, st2)) (hok : q.ok = true) :
    ∃ u2, st2.users uid = some u2 := by
  unfold P0.consumeQuota at h
  dsimp only at h
  repeat' split at h
  all_goals
    cases h
    first
    | done
    | exact ⟨_, DB.setUser_users_self st uid _⟩
    | exact ⟨_, by assumption⟩
    | (simp at hok)

/-- A Starter-level user (allowance 5) with bonus 2 and fresh usage, for
the C1 witness. -/
def aliceC1 : User :=
  ⟨"alice", some 4, none, some ((2 : Nat) : Int), some ⟨"2026-10-11", 0⟩⟩

/-- Witness for C1 with `A = 5`, `B = 2`: the 3rd call reports
`remaining = 2`, the 6th (first bonus-funded) call reports
`remaining = 0`, and the 8th call fails with `quota_exhausted`. -/
theorem c1_bounded_quota_sequence_witness :
    callNP0 "alice" (emptyDB.setUser "alice" aliceC1) 2
        = some ⟨true, none, some (Rem.fin 2)⟩
    ∧ callNP0 "alice" (emptyDB.setUser "alice" aliceC1) 5
        = some ⟨true, none, some (Rem.fin 0)⟩
    ∧ callNP0 "alice" (emptyDB.setUser "alice" aliceC1) 7
        = some ⟨false, some "quota_exhausted", none⟩ := by
  have h := c1_bounded_quota_sequence "alice" "2026-10-11" "alice" (some 4) none 5 2
    (emptyDB.setUser "alice" aliceC1) (DB.setUser_users_self emptyDB "alice" aliceC1)
    (by decide)
  exact ⟨(h.1 2 (by decide)).1, (h.2.1 5 (by decide) (by decide)).1, h.2.2⟩

/-- C5: `ensureUser` (both variants) creates a default record (default
tier, zero bonus, today's zeroed usage) for an absent user; resets
`usage` to `{today, 0}` for a user whose stored date differs from today
(also when `usage` is absent); and changes nothing at all when the
stored date is already today. -/
theorem c5_ensureUser_rollover (uid today : String) (st : DB) :
    (st.users uid = none →
      (P0.ensureUser uid today st).users uid
          = some ⟨uid, some 4, none, some 0, some ⟨today, 0⟩⟩
      ∧ (Srv.ensureUser uid today st).users uid
          = some ⟨uid, none, some "free", some 0, some ⟨today, 0⟩⟩)
    ∧ (∀ u, st.users uid = some u →
        (∀ uu, u.usage = some uu → uu.date ≠ today) →
        (P0.ensureUser uid today st).users uid
            = some { u with usage := some ⟨today, 0⟩ }
        ∧ (Srv.ensureUser uid today st).users uid
            = some { u with usage := some ⟨today, 0⟩ })
    ∧ (∀ u uu, st.users uid = some u → u.usage = some uu → uu.date = today →
        P0.ensureUser uid today st = st ∧ Srv.ensureUser uid today st = st) := by
  refine ⟨?_, ?_, ?_⟩
  · intro hu
    constructor <;> simp [P0.ensureUser, Srv.ensureUser, hu, DB.setUser]
  · intro u hu hdate
    rcases hus : u.usage with _ | uu
    · constructor <;> simp [P0.ensureUser, Srv.ensureUser, hu, hus, DB.setUser]
    · have hd : (uu.date != today) = true := by simpa using hdate uu hus
      constructor <;> simp [P0.ensureUser, Srv.ensureUser, hu, hus, hd, DB.setUser]
  · intro u uu hu hus hd
    have hd2 : (uu.date != today) = false := by simp [hd]
    constructor <;> simp [P0.ensureUser, Srv.ensureUser, hu, hus, hd2]

/-- A user record with usage dated 2026-10-10 and count 3, for the C5
witness. -/
def staleU : User := ⟨"bob", some 4, none, some 0, some ⟨"2026-10-10", 3⟩⟩

/-- Witness for C5: creation of an absent user, rollover of a stale
user on a new day, and idempotence on the stored day. -/
theorem c5_ensureUser_rollover_witness :
    (P0.ensureUser "g" "2026-10-11" emptyDB).users "g"
        = some ⟨"g", some 4, none, some 0, some ⟨"2026-10-11", 0⟩⟩
    ∧ (P0.ensureUser "bob" "2026-10-11" (emptyDB.setUser "bob" staleU)).users "bob"
        = some { staleU with usage := some ⟨"2026-10-11", 0⟩ }
    ∧ Srv.ensureUser "bob" "2026-10-10" (emptyDB.setUser "bob" staleU)
        = emptyDB.setUser "bob" staleU := by
  refine ⟨?_, ?_, ?_⟩
  · exact ((c5_ensureUser_rollover "g" "2026-10-11" emptyDB).1 rfl).1
  · exact ((c5_ensureUser_rollover "bob" "2026-10-11"
      (emptyDB.setUser "bob" staleU)).2.1 staleU (DB.setUser_users_self _ _ _)
      (fun uu h => by injection h with h2; rw [← h2]; decide)).1
  · exact ((c5_ensureUser_rollover "bob" "2026-10-10"
      (emptyDB.setUser "bob" staleU)).2.2 staleU ⟨"2026-10-10", 3⟩
      (DB.setUser_users_self _ _ _) rfl rfl).2

/-- Iterate server.js's `consumeQuota` for one user; a thrown call
leaves the store unchanged. -/
def consumeStepsS (uid : String) (st : DB) : Nat → DB
  | 0 => st
  | n + 1 =>
    match Srv.consumeQuota uid (consumeStepsS uid st n) with
    | some (_, st2) => st2
    | none => consumeStepsS uid st n

/-- The outcome of the `(n+1)`th server.js `consumeQuota` call in that
iteration. -/
def callNS (uid : String) (st : DB) (n : Nat) : Option QuotaOutcome :=
  (Srv.consumeQuota uid (consumeStepsS uid st n)).map Prod.fst

/-- C6: a user whose level (part_000) or tier (server.js) resolves to
the unbounded allowance: `consumeQuota` always succeeds reporting the
unlimited (`Infinity`) remaining and returns the store unchanged — over
any number of calls `usage.count` is never incremented and the bonus
never decremented.  (part_000 reads `usage.count` before its `Infinity`
check, so its side needs the `usage` object the preceding `ensureUser`
always establishes.) -/
theorem c6_unbounded_no_mutation (uid : String) (st : DB) (u : User)
    (hu : st.users uid = some u) :
    ((P0.resolveLevel u.levelId).requestsPerDay = none →
      ∀ uu, u.usage = some uu →
      P0.consumeQuota uid st = some (⟨true, none, some Rem.inf⟩, st)
      ∧ ∀ n, consumeStepsP0 uid st n = st
        ∧ callNP0 uid st n = some ⟨true, none, some Rem.inf⟩)
    ∧ (Srv.resolveAllowed u.tier = none →
      Srv.consumeQuota uid st = some (⟨true, none, some Rem.inf⟩, st)
      ∧ ∀ n, consumeStepsS uid st n = st
        ∧ callNS uid st n = some ⟨true, none, some Rem.inf⟩) := by
  constructor
  · intro hA uu hus
    have hone : P0.consumeQuota uid st = some (⟨true, none, some Rem.inf⟩, st) := by
      simp [P0.consumeQuota, hu, hus, hA]
    refine ⟨hone, ?_⟩
    intro n
    induction n with
    | zero => exact ⟨rfl, by simp [callNP0, consumeStepsP0, hone]⟩
    | succ m ih =>
      have hsteps : consumeStepsP0 uid st (m + 1) = st := by
        rw [consumeStepsP0, ih.1, hone]
      exact ⟨hsteps, by simp [callNP0, hsteps, hone]⟩
  · intro hA
    have hone : Srv.consumeQuota uid st = some (⟨true, none, some Rem.inf⟩, st) := by
      simp [Srv.consumeQuota, hu, hA]
    refine ⟨hone, ?_⟩
    intro n
    induction n with
    | zero => exact ⟨rfl, by simp [callNS, consumeStepsS, hone]⟩
    | succ m ih =>
      have hsteps : consumeStepsS uid st (m + 1) = st := by
        rw [consumeStepsS, ih.1, hone]
      exact ⟨hsteps, by simp [callNS, hsteps, hone]⟩

/-- A Winner-level, premium-tier user (unbounded in both variants) with
a bonus and a usage count, for the C6 witness. -/
def winnerU : User := ⟨"w", some 6, some "premium", some 3, some ⟨"2026-10-11", 2⟩⟩

/-- Witness for C6 on a concrete unbounded user: single calls succeed
with unlimited remaining, and ten iterated calls leave the store
untouched in both variants. -/
theorem c6_unbounded_no_mutation_witness :
    P0.consumeQuota "w" (emptyDB.setUser "w" winnerU)
        = some (⟨true, none, some Rem.inf⟩, emptyDB.setUser "w" winnerU)
    ∧ consumeStepsP0 "w" (emptyDB.setUser "w" winnerU) 10 = emptyDB.setUser "w" winnerU
    ∧ Srv.consumeQuota "w" (emptyDB.setUser "w" winnerU)
        = some (⟨true, none, some Rem.inf⟩, emptyDB.setUser "w" winnerU)
    ∧ callNS "w" (emptyDB.setUser "w" winnerU) 10 = some ⟨true, none, some Rem.inf⟩ := by
  have h := c6_unbounded_no_mutation "w" (emptyDB.setUser "w" winnerU) winnerU
    (DB.setUser_users_self emptyDB "w" winnerU)
  have hP := h.1 (by decide) ⟨"2026-10-11", 2⟩ rfl
  have hS := h.2 (by decide)
  exact ⟨hP.1, (hP.2 10).1, hS.1, (hS.2 10).2⟩

/-- An exhausted user: Starter level / free tier (allowance 5 in both
variants), count 5, zero bonus.  For the C7 counterexample and
witness. -/
def exhaustedU : User := ⟨"ex", some 4, some "free", some 0, some ⟨"2026-10-11", 5⟩⟩

/-- C7 counterexample: part_000's exhausted `consumeQuota` failure is
`{ ok: false, reason: "quota_exhausted" }` with NO `remaining` field
(`remaining = none`), so the failure does not carry `remaining = 0` as
the claim states. -/
theorem c7_counterexample :
    P0.consumeQuota "ex" (emptyDB.setUser "ex" exhaustedU)
        = some (⟨false, some "quota_exhausted", none⟩,
            emptyDB.setUser "ex" exhaustedU)
    ∧ (⟨false, some "quota_exhausted", none⟩ : QuotaOutcome).remaining
        ≠ some (Rem.fin 0) :=
  ⟨rfl, by decide⟩

/-- C7 amended: for an exhausted bounded-allowance user (count at or
above the allowance, no positive bonus), server.js's `consumeQuota`
failure carries both the reason `quota_exhausted` and `remaining: 0`,
while part_000's carries the reason but omits the `remaining` field;
neither call mutates the store. -/
theorem c7_exhausted_failure_fields (uid : String) (st : DB) (u : User)
    (hu : st.users uid = some u) :
    (∀ a uu, (P0.resolveLevel u.levelId).requestsPerDay = some a →
      u.usage = some uu → a ≤ uu.count →
      (∀ e, u.extraRequests = some e → e ≤ 0) →
      P0.consumeQuota uid st
        = some (⟨false, some "quota_exhausted", none⟩, st))
    ∧ (∀ a uu, Srv.resolveAllowed u.tier = some a →
      u.usage = some uu → a ≤ uu.count →
      (∀ e, u.extraRequests = some e → e ≤ 0) →
      Srv.consumeQuota uid st
        = some (⟨false, some "quota_exhausted", some (Rem.fin 0)⟩, st)) := by
  constructor
  · intro a uu hA hus hcnt hex
    have hnl : ¬ uu.count < a := by omega
    rcases hext : u.extraRequests with _ | e
    · simp [P0.consumeQuota, hu, hus, hA, hnl, hext]
    · have he : ¬ e > 0 := by have := hex e hext; omega
      simp [P0.consumeQuota, hu, hus, hA, hnl, hext, he]
  · intro a uu hA hus hcnt hex
    have hnl : ¬ uu.count < a := by omega
    rcases hext : u.extraRequests with _ | e
    · simp [Srv.consumeQuota, hu, hus, hA, hnl, hext]
    · have he : ¬ e > 0 := by have := hex e hext; omega
      simp [Srv.consumeQuota, hu, hus, hA, hnl, hext, he]

/-- Witness for the amended C7 on the concrete exhausted user: both
variants fail with reason `quota_exhausted`; server.js attaches
`remaining: 0`, part_000 attaches no `remaining`. -/
theorem c7_exhausted_failure_fields_witness :
    P0.consumeQuota "ex" (emptyDB.setUser "ex" exhaustedU)
        = some (⟨false, some "quota_exhausted", none⟩,
            emptyDB.setUser "ex" exhaustedU)
    ∧ Srv.consumeQuota "ex" (emptyDB.setUser "ex" exhaustedU)
        = some (⟨false, some "quota_exhausted", some (Rem.fin 0)⟩,
            emptyDB.setUser "ex" exhaustedU) := by
  have h := c7_exhausted_failure_fields "ex" (emptyDB.setUser "ex" exhaustedU)
    exhaustedU (DB.setUser_users_self emptyDB "ex" exhaustedU)
  exact ⟨h.1 5 ⟨"2026-10-11", 5⟩ (by decide) rfl (by decide)
      (fun e he => by injection he with h2; omega),
    h.2 5 ⟨"2026-10-11", 5⟩ (by decide) rfl (by decide)
      (fun e he => by injection he with h2; omega)⟩

/-- C3 counterexample: part_000's validation is only `if (!message)`, so
a chat request whose message is the number 1 — present but not text —
is NOT rejected as invalid: it proceeds to create and mutate the guest
user record (here: created with `usage.count` already consumed to 1). -/
theorem c3_counterexample :
    (JVal.jnum 1).isString = false
    ∧ (P0.chat none (JVal.jnum 1) Upstream.fail "2026-10-11" 0 0 emptyDB).res
        ≠ ChatRes.invalid
    ∧ (P0.chat none (JVal.jnum 1) Upstream.fail "2026-10-11" 0 0 emptyDB).db.users "guest"
        = some ⟨"guest", some 4, none, some 0, some ⟨"2026-10-11", 1⟩⟩ := by
  refine ⟨rfl, ?_, ?_⟩ <;> decide

/-- C3 amended: server.js rejects exactly the requests whose message is
missing, empty, or not a string — with `InvalidRequest` (400) and the
store completely untouched; part_000 rejects, in the same way, exactly
the requests whose message is falsy (missing, empty text, 0, false), so
a non-string truthy message passes part_000's validation. -/
theorem c3_validation_short_circuit (userId : Option String) (message : JVal)
    (up : Upstream) (today : String) (ts1 ts2 : Nat) (st : DB) :
    (¬ (message.truthy = true ∧ message.isString = true) →
      (Srv.chat userId message up today ts1 ts2 st).res = ChatRes.invalid
      ∧ (Srv.chat userId message up today ts1 ts2 st).db = st)
    ∧ (message.truthy = false →
      (P0.chat userId message up today ts1 ts2 st).res = ChatRes.invalid
      ∧ (P0.chat userId message up today ts1 ts2 st).db = st) := by
  constructor
  · intro hmsg
    have h1 : Srv.chat userId message up today ts1 ts2 st
        = ⟨ChatRes.invalid, st, none⟩ := by
      unfold Srv.chat
      split
      · rfl
      · next hcond => exact absurd (not_not.mp hcond) hmsg
    rw [h1]
    exact ⟨rfl, rfl⟩
  · intro hmsg
    have h1 : P0.chat userId message up today ts1 ts2 st
        = ⟨ChatRes.invalid, st, none⟩ := by
      unfold P0.chat
      split
      · rfl
      · next hcond => exact absurd (not_not.mp hcond) (by simp [hmsg])
    rw [h1]
    exact ⟨rfl, rfl⟩

/-- Witness for the amended C3: server.js rejects the numeric message 5
(present but not text) leaving the empty store untouched; part_000
rejects the empty-string message likewise. -/
theorem c3_validation_short_circuit_witness :
    ((Srv.chat (some "v") (JVal.jnum 5) Upstream.fail "2026-10-11" 0 0 emptyDB).res
        = ChatRes.invalid
      ∧ (Srv.chat (some "v") (JVal.jnum 5) Upstream.fail "2026-10-11" 0 0 emptyDB).db
        = emptyDB)
    ∧ ((P0.chat (some "v") (JVal.jstr "") Upstream.fail "2026-10-11" 0 0 emptyDB).res
        = ChatRes.invalid
      ∧ (P0.chat (some "v") (JVal.jstr "") Upstream.fail "2026-10-11" 0 0 emptyDB).db
        = emptyDB) :=
  ⟨(c3_validation_short_circuit (some "v") (JVal.jnum 5) Upstream.fail
      "2026-10-11" 0 0 emptyDB).1 (by decide),
    (c3_validation_short_circuit (some "v") (JVal.jstr "") Upstream.fail
      "2026-10-11" 0 0 emptyDB).2 (by decide)⟩

/-- C4: a chat request that passes validation and quota consumption but
fails at the upstream call yields the 500 result, leaves the session
log exactly as it was before the request (no user or assistant entry),
and leaves the store exactly as the quota consumption left it — the
consumed unit is not refunded.  Both variants. -/
theorem c4_upstream_failure_no_refund (userId : Option String) (message : JVal)
    (today : String) (ts1 ts2 : Nat) (st : DB) (q : QuotaOutcome) (st2 : DB) :
    (message.truthy = true →
      P0.consumeQuota (userId.getD "guest")
          (P0.ensureUser (userId.getD "guest") today st) = some (q, st2) →
      q.ok = true →
      (P0.chat userId message Upstream.fail today ts1 ts2 st).res = ChatRes.err500
      ∧ (P0.chat userId message Upstream.fail today ts1 ts2 st).db = st2
      ∧ st2.sessions = st.sessions)
    ∧ ((message.truthy = true ∧ message.isString = true) →
      Srv.consumeQuota (userId.getD "guest")
          (Srv.ensureUser (userId.getD "guest") today st) = some (q, st2) →
      q.ok = true →
      (Srv.chat userId message Upstream.fail today ts1 ts2 st).res = ChatRes.err500
      ∧ (Srv.chat userId message Upstream.fail today ts1 ts2 st).db = st2
      ∧ st2.sessions = st.sessions) := by
  constructor
  · intro hmsg hq hok
    have hsess : st2.sessions = st.sessions := by
      rw [consumeQuotaP0_sessions _ _ _ _ hq, ensureUserP0_sessions]
    rcases h2 : st2.users (userId.getD "guest") with _ | u2
    · refine ⟨?_, ?_, hsess⟩ <;> simp [P0.chat, hmsg, hq, hok, h2]
    · refine ⟨?_, ?_, hsess⟩ <;> simp [P0.chat, hmsg, hq, hok, h2]
  · intro hmsg hq hok
    have hsess : st2.sessions = st.sessions := by
      rw [consumeQuotaS_sessions _ _ _ _ hq, ensureUserS_sessions]
    refine ⟨?_, ?_, hsess⟩ <;> simp [Srv.chat, hmsg.1, hmsg.2, hq, hok]

/-- The guest record part_000's `ensureUser` creates on first contact. -/
def guestFreshP0 : User := ⟨"guest", some 4, none, some 0, some ⟨"2026-10-11", 0⟩⟩

/-- That record after one allowance consumption. -/
def guestAfterP0 : User := ⟨"guest", some 4, none, some 0, some ⟨"2026-10-11", 1⟩⟩

/-- The guest record server.js's `ensureUser` creates on first contact. -/
def guestFreshS : User := ⟨"guest", none, some "free", some 0, some ⟨"2026-10-11", 0⟩⟩

/-- That record after one allowance consumption. -/
def guestAfterS : User := ⟨"guest", none, some "free", some 0, some ⟨"2026-10-11", 1⟩⟩

/-- Witness for C4: a fresh guest sends "hi", the upstream call fails —
both variants answer 500, keep the incremented usage count, and leave
the (empty) session log untouched. -/
theorem c4_upstream_failure_no_refund_witness :
    ((P0.chat none (JVal.jstr "hi") Upstream.fail "2026-10-11" 7 8 emptyDB).res
        = ChatRes.err500
      ∧ (P0.chat none (JVal.jstr "hi") Upstream.fail "2026-10-11" 7 8 emptyDB).db
        = (emptyDB.setUser "guest" guestFreshP0).setUser "guest" guestAfterP0
      ∧ ((emptyDB.setUser "guest" guestFreshP0).setUser "guest" guestAfterP0).sessions
        = emptyDB.sessions)
    ∧ ((Srv.chat none (JVal.jstr "hi") Upstream.fail "2026-10-11" 7 8 emptyDB).res
        = ChatRes.err500
      ∧ (Srv.chat none (JVal.jstr "hi") Upstream.fail "2026-10-11" 7 8 emptyDB).db
        = (emptyDB.setUser "guest" guestFreshS).setUser "guest" guestAfterS
      ∧ ((emptyDB.setUser "guest" guestFreshS).setUser "guest" guestAfterS).sessions
        = emptyDB.sessions) :=
  ⟨(c4_upstream_failure_no_refund none (JVal.jstr "hi") "2026-10-11" 7 8 emptyDB
      ⟨true, none, some (Rem.fin 4)⟩
      ((emptyDB.setUser "guest" guestFreshP0).setUser "guest" guestAfterP0)).1
      (by decide) rfl rfl,
    (c4_upstream_failure_no_refund none (JVal.jstr "hi") "2026-10-11" 7 8 emptyDB
      ⟨true, none, some (Rem.fin 4)⟩
      ((emptyDB.setUser "guest" guestFreshS).setUser "guest" guestAfterS)).2
      (by decide) rfl rfl⟩

/-- C8 counterexample: server.js maps the completion content with
`?? "(keine Antwort)"`, so an upstream success whose content is the
empty string is returned as an empty reply, not the placeholder. -/
theorem c8_counterexample :
    (Srv.chat (some "bob") (JVal.jstr "hello") (Upstream.ok (some ""))
        "2026-10-11" 1 2 emptyDB).res = ChatRes.success "" (some (Rem.fin 4))
    ∧ "" ≠ PLACEHOLDER :=
  ⟨by decide, by decide⟩

/-- C8 amended: when the upstream call succeeds but its extracted
completion content is missing, both variants substitute the fixed
placeholder reply; when the content is present but empty, part_000
(`content || ...`) also substitutes the placeholder while server.js
(`content ?? ...`) returns the empty string as the reply. -/
theorem c8_empty_completion_placeholder (userId : Option String) (message : JVal)
    (today : String) (ts1 ts2 : Nat) (st : DB) (q : QuotaOutcome) (st2 : DB) :
    (message.truthy = true →
      P0.consumeQuota (userId.getD "guest")
          (P0.ensureUser (userId.getD "guest") today st) = some (q, st2) →
      q.ok = true →
      (P0.chat userId message (Upstream.ok none) today ts1 ts2 st).res
          = ChatRes.success PLACEHOLDER q.remaining
      ∧ (P0.chat userId message (Upstream.ok (some "")) today ts1 ts2 st).res
          = ChatRes.success PLACEHOLDER q.remaining)
    ∧ ((message.truthy = true ∧ message.isString = true) →
      Srv.consumeQuota (userId.getD "guest")
          (Srv.ensureUser (userId.getD "guest") today st) = some (q, st2) →
      q.ok = true →
      (Srv.chat userId message (Upstream.ok none) today ts1 ts2 st).res
          = ChatRes.success PLACEHOLDER q.remaining
      ∧ (Srv.chat userId message (Upstream.ok (some "")) today ts1 ts2 st).res
          = ChatRes.success "" q.remaining) := by
  constructor
  · intro hmsg hq hok
    obtain ⟨u2, h2⟩ := consumeQuotaP0_ok_user _ _ _ _ hq hok
    constructor <;> simp [P0.chat, hmsg, hq, hok, h2]
  · intro hmsg hq hok
    constructor <;> simp [Srv.chat, hmsg.1, hmsg.2, hq, hok]

/-- Witness for the amended C8: a fresh guest, missing content gives
the placeholder in both variants; empty content gives the placeholder
in part_000. -/
theorem c8_empty_completion_placeholder_witness :
    ((P0.chat none (JVal.jstr "hey") (Upstream.ok none) "2026-10-11" 1 2 emptyDB).res
        = ChatRes.success PLACEHOLDER (some (Rem.fin 4))
      ∧ (P0.chat none (JVal.jstr "hey") (Upstream.ok (some "")) "2026-10-11" 1 2 emptyDB).res
        = ChatRes.success PLACEHOLDER (some (Rem.fin 4)))
    ∧ (Srv.chat none (JVal.jstr "hey") (Upstream.ok none) "2026-10-11" 1 2 emptyDB).res
        = ChatRes.success PLACEHOLDER (some (Rem.fin 4)) :=
  ⟨(c8_empty_completion_placeholder none (JVal.jstr "hey") "2026-10-11" 1 2 emptyDB
      ⟨true, none, some (Rem.fin 4)⟩
      ((emptyDB.setUser "guest" guestFreshP0).setUser "guest" guestAfterP0)).1
      (by decide) rfl rfl,
    ((c8_empty_completion_placeholder none (JVal.jstr "hey") "2026-10-11" 1 2 emptyDB
      ⟨true, none, some (Rem.fin 4)⟩
      ((emptyDB.setUser "guest" guestFreshS).setUser "guest" guestAfterS)).2
      (by decide) rfl rfl).1⟩

/-- C9: updating entitlements for an existing user.  part_000's
`updateLevel` and server.js's `updateTier` leave the stored bonus
exactly as it was whenever no numeric bonus field is supplied (absence
is not zero), and leave `id` and `usage` untouched by every call;
part_000 leaves the stored level unchanged when no level value is
supplied, and server.js keeps the stored tier when no new tier is
supplied, provided the stored tier is a non-empty string (which every
record created through the API has). -/
theorem c9_update_preserves_fields (uid today : String) (st : DB) (u : User)
    (hu : st.users uid = some u) (hne : uid ≠ "") :
    (∀ lvl, ((P0.updateLevel (some uid) lvl none st).2.users uid).map
        (fun u2 => (u2.id, u2.extraRequests, u2.usage))
        = some (u.id, u.extraRequests, u.usage))
    ∧ (∀ ex, ((P0.updateLevel (some uid) none ex st).2.users uid).map User.levelId
        = some u.levelId)
    ∧ (∀ t, ((Srv.updateTier (some uid) t none today st).2.users uid).map
        (fun u2 => (u2.id, u2.extraRequests, u2.usage))
        = some (u.id, u.extraRequests, u.usage))
    ∧ (∀ t0, u.tier = some t0 → t0 ≠ "" →
        ∀ ex, ((Srv.updateTier (some uid) none ex today st).2.users uid).map User.tier
          = some (some t0)) := by
  refine ⟨?_, ?_, ?_, ?_⟩
  · intro lvl
    rcases lvl with _ | l
    · simp [P0.updateLevel, hu, hne, DB.setUser]
    · by_cases hl : l ≠ 0
      · simp [P0.updateLevel, hu, hne, hl, DB.setUser]
      · simp [P0.updateLevel, hu, hne, hl, DB.setUser]
  · intro ex
    rcases ex with _ | e
    · simp [P0.updateLevel, hu, hne, DB.setUser]
    · simp [P0.updateLevel, hu, hne, DB.setUser]
  · intro t
    simp [Srv.updateTier, hu, hne, DB.setUser]
  · intro t0 ht ht0 ex
    rcases ex with _ | e
    · simp [Srv.updateTier, hu, hne, ht, ht0, DB.setUser]
    · simp [Srv.updateTier, hu, hne, ht, ht0, DB.setUser]

/-- A claimer-level, pro-tier user with a positive bonus of 7, for the
C9 witness. -/
def bonusU : User := ⟨"m", some 5, some "pro", some 7, some ⟨"2026-10-11", 1⟩⟩

/-- Witness for C9: updating the level (to 2) without a bonus field
keeps the bonus 7; updating only the bonus keeps level 5; server.js's
`updateTier` to "basic" without a bonus field keeps the bonus 7; and
with no tier supplied the stored "pro" survives. -/
theorem c9_update_preserves_fields_witness :
    ((P0.updateLevel (some "m") (some 2) none (emptyDB.setUser "m" bonusU)).2.users "m").map
        (fun u2 => (u2.id, u2.extraRequests, u2.usage))
        = some ("m", some 7, some ⟨"2026-10-11", 1⟩)
    ∧ ((P0.updateLevel (some "m") none (some 9) (emptyDB.setUser "m" bonusU)).2.users "m").map
        User.levelId = some (some 5)
    ∧ ((Srv.updateTier (some "m") (some "basic") none "2026-10-12"
        (emptyDB.setUser "m" bonusU)).2.users "m").map
        (fun u2 => (u2.id, u2.extraRequests, u2.usage))
        = some ("m", some 7, some ⟨"2026-10-11", 1⟩)
    ∧ ((Srv.updateTier (some "m") none none "2026-10-12"
        (emptyDB.setUser "m" bonusU)).2.users "m").map User.tier
        = some (some "pro") := by
  have h := c9_update_preserves_fields "m" "2026-10-12" (emptyDB.setUser "m" bonusU)
    bonusU (DB.setUser_users_self emptyDB "m" bonusU) (by decide)
  exact ⟨h.1 (some 2), h.2.1 (some 9), h.2.2.1 (some "basic"),
    h.2.2.2 "pro" rfl (by decide) none⟩

/-- C10: a stored `levelId` that is not a key of the `LEVELS` table, or
an absent one, makes part_000 fall back to the Starter entry:
`resolveLevel` yields the Starter level (`levelId` 4: allowance 5/day,
model `gpt-4.1-mini`); `consumeQuota` grants the request against that
5-per-day allowance (the request is neither rejected nor treated as
having allowance 0); and the chat orchestrator sends the Starter model
name upstream. -/
theorem c10_unknown_level_starter_default (lid : Int) (hl : P0.LEVELS lid = none) :
    P0.resolveLevel (some lid) = ⟨"Cashly Starter Lifetime", some 5, "gpt-4.1-mini"⟩
    ∧ P0.resolveLevel none = ⟨"Cashly Starter Lifetime", some 5, "gpt-4.1-mini"⟩
    ∧ (∀ uid d i tr e c st,
        st.users uid = some ⟨i, some lid, tr, some e, some ⟨d, c⟩⟩ → c < 5 →
        P0.consumeQuota uid st
          = some (⟨true, none, some (Rem.fin (5 - (c + 1)))⟩,
              st.setUser uid ⟨i, some lid, tr, some e, some ⟨d, c + 1⟩⟩))
    ∧ (∀ userId message (up : Upstream) today ts1 ts2 st q st2 u2,
        message.truthy = true →
        P0.consumeQuota (userId.getD "guest")
            (P0.ensureUser (userId.getD "guest") today st) = some (q, st2) →
        q.ok = true →
        st2.users (userId.getD "guest") = some u2 →
        u2.levelId = some lid →
        (P0.chat userId message up today ts1 ts2 st).payloadModel
          = some "gpt-4.1-mini") := by
  have hres : P0.resolveLevel (some lid)
      = ⟨"Cashly Starter Lifetime", some 5, "gpt-4.1-mini"⟩ := by
    simp [P0.resolveLevel, hl]
  refine ⟨hres, rfl, ?_, ?_⟩
  · intro uid d i tr e c st hu hc
    have hstep := consumeQuotaP0_bounded uid d i (some lid) tr 5 c e st hu
      (by rw [hres])
    rw [hstep, if_pos hc]
  · intro userId message up today ts1 ts2 st q st2 u2 hmsg hq hok h2 hlid
    rcases up with _ | content
    · simp [P0.chat, hmsg, hq, hok, h2, hlid, hres]
    · simp [P0.chat, hmsg, hq, hok, h2, hlid, hres]

/-- A user whose stored `levelId` 99 is not a key of `LEVELS`, with
today's fresh usage, for the C10 witness. -/
def unknownLvlU : User := ⟨"z", some 99, none, some 0, some ⟨"2026-10-11", 0⟩⟩

/-- Witness for C10 at `levelId = 99`: resolution falls back to the
Starter entry; a consumption is granted with `remaining = 4` (Starter
allowance 5, not 0, not rejected); and a chat run sends the Starter
model upstream. -/
theorem c10_unknown_level_starter_default_witness :
    P0.resolveLevel (some 99) = ⟨"Cashly Starter Lifetime", some 5, "gpt-4.1-mini"⟩
    ∧ P0.consumeQuota "z" (emptyDB.setUser "z" unknownLvlU)
        = some (⟨true, none, some (Rem.fin 4)⟩,
            (emptyDB.setUser "z" unknownLvlU).setUser "z"
              ⟨"z", some 99, none, some 0, some ⟨"2026-10-11", 1⟩⟩)
    ∧ (P0.chat (some "z") (JVal.jstr "hi") (Upstream.ok (some "yo"))
        "2026-10-11" 1 2 (emptyDB.setUser "z" unknownLvlU)).payloadModel
        = some "gpt-4.1-mini" := by
  have h := c10_unknown_level_starter_default 99 (by decide)
  refine ⟨h.1, ?_, ?_⟩
  · exact h.2.2.1 "z" "2026-10-11" "z" none 0 0 (emptyDB.setUser "z" unknownLvlU)
      (DB.setUser_users_self emptyDB "z" unknownLvlU) (by decide)
  · exact h.2.2.2 (some "z") (JVal.jstr "hi") (Upstream.ok (some "yo"))
      "2026-10-11" 1 2 (emptyDB.setUser "z" unknownLvlU)
      ⟨true, none, some (Rem.fin 4)⟩
      ((emptyDB.setUser "z" unknownLvlU).setUser "z"
        ⟨"z", some 99, none, some 0, some ⟨"2026-10-11", 1⟩⟩)
      ⟨"z", some 99, none, some 0, some ⟨"2026-10-11", 1⟩⟩
      (by decide) rfl rfl rfl rfl
